import Mathlib

/-!
Verification of the raster alignment & merge pipeline of the
`landsat8-cog-ndvi` notebook.

The notebook's substantive code is shallowly embedded here:

* `make_google_archive`, `pySlice13`, `pyLastTwo` — the archive URL
  resolver (notebook cell 6), with Python string slicing made explicit;
* `create_multiband_dataset` — Stage A, the per-item multi-band merge
  (cell 21, `xr.merge`);
* `unify` — Stage B, the per-item load loop with try/except skipping
  (cell 22) followed by `xr.concat(datasets, dim=pd.DatetimeIndex(df.date.tolist()))`
  (cell 23);
* `NDVI` — the normalized-difference computation (cell 27);
* `sel`, `resampleMean`, `reduce` — the point-buffer window selection and
  monthly-mean time series (cell 32).

Floating-point cell values are modelled exactly by `Val`: a rational
number, an infinity, or the not-a-number marker `Val.nan` (which is also
xarray's missing-value fill for float arrays).  The claims settled here
depend only on the exact IEEE rules (nan propagation, 0/0 = nan), never
on rounding.  Coordinates (UTM eastings/northings) and timestamps are
modelled as integers.

The alignment semantics of `xr.merge`/`xr.concat` (outer join: the union
of the coordinate indexes, sorted ascending, reindexing each input with
the nan fill value) are not code of this repository; they are modelled
from the documented behaviour the spec describes.
-/

namespace Landsat

/-- Scalar cell value of a raster: an IEEE-style float modelled exactly.
`nan` doubles as xarray's missing-value marker for float arrays. -/
inductive Val where
  | nan : Val
  | inf : Bool → Val
  | num : ℚ → Val
deriving DecidableEq

/-- Addition with IEEE nan/infinity propagation. -/
def vadd : Val → Val → Val
  | Val.nan, _ => Val.nan
  | _, Val.nan => Val.nan
  | Val.inf s, Val.inf t => if s = t then Val.inf s else Val.nan
  | Val.inf s, Val.num _ => Val.inf s
  | Val.num _, Val.inf t => Val.inf t
  | Val.num a, Val.num b => Val.num (a + b)

/-- Subtraction with IEEE nan/infinity propagation. -/
def vsub : Val → Val → Val
  | Val.nan, _ => Val.nan
  | _, Val.nan => Val.nan
  | Val.inf s, Val.inf t => if s = !t then Val.inf s else Val.nan
  | Val.inf s, Val.num _ => Val.inf s
  | Val.num _, Val.inf t => Val.inf (!t)
  | Val.num a, Val.num b => Val.num (a - b)

/-- Division with IEEE semantics: 0/0 is nan (never a fault), a nonzero
finite numerator over zero is a signed infinity, nan propagates. -/
def vdiv : Val → Val → Val
  | Val.nan, _ => Val.nan
  | _, Val.nan => Val.nan
  | Val.inf _, Val.inf _ => Val.nan
  | Val.inf s, Val.num b => if 0 ≤ b then Val.inf s else Val.inf (!s)
  | Val.num _, Val.inf _ => Val.num 0
  | Val.num a, Val.num b =>
      if b = 0 then (if a = 0 then Val.nan else Val.inf (decide (0 ≤ a)))
      else Val.num (a / b)

/-- Band name, e.g. "B4" or "B5". -/
abbrev Band := String

/-- Lazily-loaded single-band grid as opened by `xr.open_rasterio`:
its two georeferenced coordinate axes plus the value at each coordinate
pair (meaningful on `xs × ys`). -/
structure RasterGrid where
  xs : List ℤ
  ys : List ℤ
  vals : ℤ → ℤ → Val

/-- Multi-band dataset sharing one pair of coordinate axes (the result
of `xr.merge` in Stage A). -/
structure Dataset where
  xs : List ℤ
  ys : List ℤ
  vals : Band → ℤ → ℤ → Val

/-- One catalogued acquisition as consumed by the notebook's load loop:
its acquisition date and the outcome of opening its band rasters.
`load = none` models a failed load (network error, malformed raster),
i.e. the case in which `create_multiband_dataset` raises. -/
structure Item where
  date : ℤ
  load : Option (List (Band × RasterGrid))

/-- Union of coordinate axes as performed by xarray outer-join
alignment: all axis points of all inputs, deduplicated and sorted
ascending. -/
def axisUnion (ls : List (List ℤ)) : List ℤ :=
  (ls.flatten.dedup).insertionSort (· ≤ ·)

/-- Reindexing of a single-band grid onto unified axes: a cell keeps the
grid's value at the grid's own coordinate points and receives the nan
fill everywhere else. -/
def reindex (g : RasterGrid) : ℤ → ℤ → Val :=
  fun x y => if x ∈ g.xs ∧ y ∈ g.ys then g.vals x y else Val.nan

/-- Modelled from the spec and xarray's documented outer-join `merge`:
every band variable is reindexed onto the sorted union of the band axes;
a band absent from the input is all-missing.  There is no axis-equality
check and no failure path. -/
def xr_merge (grids : List (Band × RasterGrid)) : Dataset :=
  { xs := axisUnion (grids.map (fun p => p.2.xs))
  , ys := axisUnion (grids.map (fun p => p.2.ys))
  , vals := fun b x y =>
      match grids.find? (fun p => p.1 == b) with
      | some p => reindex p.2 x y
      | none => Val.nan }

/-- Stage A of the notebook (cell 21): open every requested band of one
item and merge them into a single dataset with `xr.merge`; `none` when
opening the rasters fails. -/
def create_multiband_dataset (i : Item) : Option Dataset :=
  i.load.map xr_merge

/-- Unified 3D (time × y × x) dataset produced by `xr.concat`. -/
structure Unified where
  times : List ℤ
  xs : List ℤ
  ys : List ℤ
  vals : Band → ℕ → ℤ → ℤ → Val

/-- Alignment and stacking step of `xr.concat`: outer-join the spatial
axes of all per-item datasets, reindex every item onto the unified axes
with the nan fill, and stack along a new leading time axis carrying the
supplied coordinate values in the supplied order. -/
def alignStack (dss : List Dataset) (dates : List ℤ) : Unified :=
  { times := dates
  , xs := axisUnion (dss.map Dataset.xs)
  , ys := axisUnion (dss.map Dataset.ys)
  , vals := fun b t x y =>
      match dss[t]? with
      | some ds => if x ∈ ds.xs ∧ y ∈ ds.ys then ds.vals b x y else Val.nan
      | none => Val.nan }

/-- Modelled from the spec and xarray's documented `concat`: stacking a
list of datasets along a new dimension whose coordinate is a supplied
index raises a conflicting-sizes error when the index length differs
from the number of datasets. -/
def xr_concat (dss : List Dataset) (dates : List ℤ) : Except String Unified :=
  if dss.length = dates.length then Except.ok (alignStack dss dates)
  else Except.error "conflicting sizes for dimension time"

/-- Stage B exactly as the notebook runs it (cells 22 and 23): load each
item, skipping failures with a printed diagnostic (`filterMap`), then
concatenate the loaded datasets along a time axis built from the dates
of ALL items of the dataframe (`pd.DatetimeIndex(df.date.tolist())`). -/
def unify (items : List Item) : Except String Unified :=
  xr_concat (items.filterMap create_multiband_dataset) (items.map Item.date)

/-- Time axis of a unification outcome, when it succeeded. -/
def unifyTimes : Except String Unified → Option (List ℤ)
  | Except.ok u => some u.times
  | Except.error _ => none

/-- Spatial axes of a unification outcome, when it succeeded. -/
def unifyAxes : Except String Unified → Option (List ℤ × List ℤ)
  | Except.ok u => some (u.xs, u.ys)
  | Except.error _ => none

/-- One time slice of a unified dataset: its timestamp together with the
band values over the spatial axes at that time index. -/
def timeSlices (u : Unified) : List (ℤ × (Band → ℤ → ℤ → Val)) :=
  (List.range u.times.length).map
    (fun t => (u.times.getD t 0, fun b x y => u.vals b t x y))

/-- Derived 3D array such as the NDVI array (same layout as `Unified`,
one unnamed variable). -/
structure DataArray3 where
  times : List ℤ
  xs : List ℤ
  ys : List ℤ
  vals : ℕ → ℤ → ℤ → Val

/-- NDVI computation exactly as cell 27 of the notebook writes it:
`NDVI = (DS['B5'] - DS['B4']) / (DS['B5'] + DS['B4'])`, elementwise over
the unified dataset. -/
def NDVI (u : Unified) : DataArray3 :=
  { times := u.times
  , xs := u.xs
  , ys := u.ys
  , vals := fun t x y =>
      vdiv (vsub (u.vals "B5" t x y) (u.vals "B4" t x y))
           (vadd (u.vals "B5" t x y) (u.vals "B4" t x y)) }

/-- Modelled from the spec: the abstract `computeIndex` contract, word
for word — result[t,y,x] = (dataset[denominatorBand][t,y,x] −
dataset[numeratorBand][t,y,x]) / (dataset[denominatorBand][t,y,x] +
dataset[numeratorBand][t,y,x]), same shape and axes.  Stated separately
from `NDVI` so that the code can be proved a refinement of it. -/
def computeIndex (u : Unified) (numeratorBand denominatorBand : Band) :
    DataArray3 :=
  { times := u.times
  , xs := u.xs
  , ys := u.ys
  , vals := fun t x y =>
      vdiv (vsub (u.vals denominatorBand t x y) (u.vals numeratorBand t x y))
           (vadd (u.vals denominatorBand t x y) (u.vals numeratorBand t x y)) }

/-- Label-based window selection as performed by
`NDVI.sel(x=slice(xlo,xhi), y=slice(ylo,yhi))` on ascending axes: keeps
exactly the axis points lying inside the inclusive bounds; never fails,
an empty selection is an empty (but well-formed) array. -/
def sel (a : DataArray3) (xlo xhi ylo yhi : ℤ) : DataArray3 :=
  { times := a.times
  , xs := a.xs.filter (fun x => decide (xlo ≤ x) && decide (x ≤ xhi))
  , ys := a.ys.filter (fun y => decide (ylo ≤ y) && decide (y ≤ yhi))
  , vals := a.vals }

/-- Mean of a list of cell values with xarray's default nan skipping:
the nan cells are dropped, the rest are averaged; with no valid cell the
mean is nan (never a fault). -/
def vmean (vs : List Val) : Val :=
  let valid := vs.filter (fun v => decide (v ≠ Val.nan))
  if valid.isEmpty then Val.nan
  else vdiv (valid.foldl vadd (Val.num 0)) (Val.num valid.length)

/-- All cell values of the array whose time index falls in the bucket
`k` under the bucket map. -/
def bucketCells (a : DataArray3) (bucket : ℤ → ℤ) (k : ℤ) : List Val :=
  ((List.range a.times.length).filter
      (fun t => decide (bucket (a.times.getD t 0) = k))).flatMap
    (fun t => a.ys.flatMap (fun y => a.xs.map (fun x => a.vals t x y)))

/-- Temporal resampling with bucket means, as `resample(time='1MS').mean`
over the remaining dims: one entry per bucket occurring in the time
axis, carrying the mean of all cells of that bucket. -/
def resampleMean (a : DataArray3) (bucket : ℤ → ℤ) : List (ℤ × Val) :=
  ((a.times.map bucket).dedup).map (fun k => (k, vmean (bucketCells a bucket k)))

/-- Reduction of cell 32 of the notebook: select the inclusive window of
radius `buf` around the tapped centre, then the bucketed temporal mean.
The calendar-month map of `'1MS'` is abstracted as the `bucket`
argument. -/
def reduce (a : DataArray3) (xcen ycen buf : ℤ) (bucket : ℤ → ℤ) :
    List (ℤ × Val) :=
  resampleMean (sel a (xcen - buf) (xcen + buf) (ycen - buf) (ycen + buf)) bucket

/-- Python `str.split('_')` over the character list: splits at every
underscore, keeping empty fields, so that `"a_b".split` is `["a","b"]`
and the split of the empty string is `[""]`. -/
def splitUnderscore : List Char → List (List Char)
  | [] => [[]]
  | c :: rest =>
      match splitUnderscore rest with
      | [] => [[c]]
      | h :: t => if c = '_' then [] :: h :: t else (c :: h) :: t

/-- Python `s.split('_')[i]` (empty string when the field is absent). -/
def pyField (s : String) (i : ℕ) : String :=
  String.mk ((splitUnderscore s.toList).getD i [])

/-- Python `s[1:3]`. -/
def pySlice13 (s : String) : String :=
  String.mk ((s.toList.drop 1).take 2)

/-- Python `s[-2:]` (for strings of length at least 2). -/
def pyLastTwo (s : String) : String :=
  String.mk (s.toList.drop (s.toList.length - 2))

/-- Base URL construction of `make_google_archive` (cell 6): path is
`pids[0].split('_')[2][1:3]`, row is `pids[0].split('_')[2][-2:]`, both
substituted into the template after a hard-coded leading '0'. -/
def make_google_baseurl (pids : List String) : String :=
  "https://storage.googleapis.com/gcp-public-data-landsat/LC08/01/0"
    ++ pySlice13 (pyField (pids.getD 0 "") 2)
    ++ "/0" ++ pyLastTwo (pyField (pids.getD 0 "") 2)

/-- One row of the dataframe built by `make_google_archive`: the product
id, its date field, and the per-band URL columns. -/
structure ArchiveRow where
  product_id : String
  date : String
  urls : List (String × String)

/-- Archive URL resolver of cell 6: one row per product id, with the
date taken from field 3 of the id and one `{baseurl}/{x}/{x}_{band}.TIF`
URL per requested band. -/
def make_google_archive (pids : List String) (bands : List String) :
    List ArchiveRow :=
  pids.map (fun x =>
    { product_id := x
    , date := pyField x 3
    , urls := bands.map (fun band =>
        (band, make_google_baseurl pids ++ "/" ++ x ++ "/" ++ x ++ "_" ++ band ++ ".TIF")) })

/-- Cell 9 of the notebook: the archive is always built from
`pids[:-1]`, dropping the last catalogued product id. -/
def pipeline_archive (pids : List String) : List ArchiveRow :=
  make_google_archive pids.dropLast ["B4", "B5"]

/-- Single-cell grid used by the concrete witnesses below. -/
def gridOne : RasterGrid := ⟨[0], [0], fun _ _ => Val.num 1⟩

/-- Loadable item with the earlier acquisition date. -/
def itemEarly : Item := ⟨100, some [("B4", gridOne), ("B5", gridOne)]⟩

/-- Loadable item with the later acquisition date. -/
def itemLate : Item := ⟨200, some [("B4", gridOne), ("B5", gridOne)]⟩

/-- Item whose raster load fails (e.g. a network error). -/
def itemBroken : Item := ⟨150, none⟩

/-- Band B4 grid of the axis-misaligned example item. -/
def gridB4 : RasterGrid := ⟨[0, 1], [0], fun _ _ => Val.num 2⟩

/-- Band B5 grid of the axis-misaligned example item, with a different
x axis than its B4 grid. -/
def gridB5 : RasterGrid := ⟨[0, 2], [0], fun _ _ => Val.num 3⟩

/-- Item whose two bands carry different coordinate axes. -/
def itemMis : Item := ⟨0, some [("B4", gridB4), ("B5", gridB5)]⟩

/-- Unified dataset whose every cell is the valid measurement zero. -/
def unifiedZero : Unified := ⟨[0], [0], [0], fun _ _ _ _ => Val.num 0⟩

/-- Unified dataset whose every cell carries the missing marker. -/
def unifiedNan : Unified := ⟨[0], [0], [0], fun _ _ _ _ => Val.nan⟩

/-- Concrete 2×2 single-time derived array for the reduction examples. -/
def exArr : DataArray3 := ⟨[5], [0, 1], [0, 1], fun _ _ _ => Val.num 1⟩

/-- Concrete per-item dataset covering x ∈ {0, 1}. -/
def dsLeft : Dataset := ⟨[0, 1], [10], fun _ _ _ => Val.num 3⟩

/-- Concrete per-item dataset covering x ∈ {1, 2}. -/
def dsRight : Dataset := ⟨[1, 2], [10], fun _ _ _ => Val.num 4⟩

/-- Product id encoding WRS path 123 and row 456 (both ≥ 100). -/
def pidBig : String := "LC08_L1TP_123456_20180901_20180901_01_T1"

end Landsat

namespace Landsat

/-- Addition by nan is nan. -/
theorem vadd_nan_left (v : Val) : vadd Val.nan v = Val.nan := by cases v <;> rfl

/-- Addition of nan is nan. -/
theorem vadd_nan_right (v : Val) : vadd v Val.nan = Val.nan := by cases v <;> rfl

/-- Subtraction from nan is nan. -/
theorem vsub_nan_left (v : Val) : vsub Val.nan v = Val.nan := by cases v <;> rfl

/-- Subtraction of nan is nan. -/
theorem vsub_nan_right (v : Val) : vsub v Val.nan = Val.nan := by cases v <;> rfl

/-- Division of nan is nan. -/
theorem vdiv_nan_left (v : Val) : vdiv Val.nan v = Val.nan := by cases v <;> rfl

/-- Division by nan is nan. -/
theorem vdiv_nan_right (v : Val) : vdiv v Val.nan = Val.nan := by cases v <;> rfl

/-- Helper: a list with an element that `f` maps to `none` loses length
under `filterMap f`. -/
theorem length_filterMap_lt {α β : Type} (f : α → Option β) {l : List α} {a : α}
    (ha : a ∈ l) (hfa : f a = none) :
    (l.filterMap f).length < l.length := by
  induction l with
  | nil => exact absurd ha (List.not_mem_nil a)
  | cons b t ih =>
    rcases List.mem_cons.mp ha with rfl | hmem
    · rw [List.filterMap_cons, hfa]
      simpa using Nat.lt_succ_of_le (List.length_filterMap_le f t)
    · rw [List.filterMap_cons]
      cases hfb : f b with
      | none => simpa using Nat.lt_succ_of_lt (ih hmem)
      | some c => simpa using Nat.succ_lt_succ (ih hmem)

/-- Membership in the unified axis is membership in some input axis. -/
theorem mem_axisUnion {x : ℤ} {ls : List (List ℤ)} :
    x ∈ axisUnion ls ↔ ∃ l ∈ ls, x ∈ l := by
  unfold axisUnion
  rw [List.mem_insertionSort, List.mem_dedup, List.mem_flatten]

/-- Unified axes are sorted ascending. -/
theorem sorted_axisUnion (ls : List (List ℤ)) :
    List.Sorted (· ≤ ·) (axisUnion ls) :=
  List.sorted_insertionSort _ _

/-- Unified axes carry no duplicate coordinate. -/
theorem nodup_axisUnion (ls : List (List ℤ)) : (axisUnion ls).Nodup :=
  (List.perm_insertionSort _ _).nodup_iff.mpr (List.nodup_dedup _)

/-- Axis union only depends on the inputs up to permutation. -/
theorem axisUnion_perm {l₁ l₂ : List (List ℤ)} (h : l₁.Perm l₂) :
    axisUnion l₁ = axisUnion l₂ := by
  apply List.eq_of_perm_of_sorted ?_ (sorted_axisUnion l₁) (sorted_axisUnion l₂)
  exact ((List.perm_insertionSort _ _).trans (h.flatten.dedup)).trans
    (List.perm_insertionSort _ _).symm

/-- C2: contrary to the claim, a single failed item load makes the whole
unification raise.  The load loop does skip the failed item, but
`xr.concat` is then handed the dates of ALL items of the dataframe
(`pd.DatetimeIndex(df.date.tolist())`), whose length no longer matches
the number of loaded datasets, so the concatenation fails with a
conflicting-sizes error past the unification boundary. -/
theorem c2_partial_failure_aborts_unification
    (items : List Item) (i : Item) (hi : i ∈ items) (hfail : i.load = none) :
    unify items = Except.error "conflicting sizes for dimension time" := by
  have hnone : create_multiband_dataset i = none := by
    simp [create_multiband_dataset, hfail]
  have hlt := length_filterMap_lt create_multiband_dataset hi hnone
  have hne : (items.filterMap create_multiband_dataset).length
      ≠ (items.map Item.date).length := by
    rw [List.length_map]; omega
  simp only [unify, xr_concat, if_neg hne]

/-- Witness for C2: with one of three items failing to load, the
notebook's Stage B raises instead of producing a two-entry time axis. -/
theorem c2_partial_failure_aborts_unification_witness :
    itemBroken ∈ [itemEarly, itemBroken, itemLate]
    ∧ itemBroken.load = none
    ∧ unify [itemEarly, itemBroken, itemLate]
        = Except.error "conflicting sizes for dimension time" :=
  ⟨by simp, rfl,
    c2_partial_failure_aborts_unification [itemEarly, itemBroken, itemLate]
      itemBroken (by simp) rfl⟩

/-- C4: the notebook's NDVI expression is exactly the spec's
`computeIndex` contract instantiated with numerator band B4 and
denominator band B5 — an elementwise normalized difference whose output
carries the same temporal and spatial axes as the input dataset. -/
theorem c4_ndvi_refines_computeIndex (u : Unified) :
    computeIndex u "B4" "B5" = NDVI u
    ∧ (NDVI u).times = u.times ∧ (NDVI u).xs = u.xs ∧ (NDVI u).ys = u.ys
    ∧ ∀ t x y, (NDVI u).vals t x y =
        vdiv (vsub (u.vals "B5" t x y) (u.vals "B4" t x y))
             (vadd (u.vals "B5" t x y) (u.vals "B4" t x y)) :=
  ⟨rfl, rfl, rfl, rfl, fun _ _ _ => rfl⟩

/-- C5: where both bands hold the valid measurement zero, the NDVI
division is 0/0 and yields the explicit not-a-number value; division is
total in the model, so no runtime fault can occur and the output is nan
rather than a silent zero. -/
theorem c5_zero_over_zero_is_nan (u : Unified) (t : ℕ) (x y : ℤ)
    (h5 : u.vals "B5" t x y = Val.num 0) (h4 : u.vals "B4" t x y = Val.num 0) :
    (NDVI u).vals t x y = Val.nan := by
  simp [NDVI, h5, h4, vsub, vadd, vdiv]

/-- Witness for C5 on a concrete all-zero dataset. -/
theorem c5_zero_over_zero_is_nan_witness :
    unifiedZero.vals "B5" 0 0 0 = Val.num 0
    ∧ unifiedZero.vals "B4" 0 0 0 = Val.num 0
    ∧ (NDVI unifiedZero).vals 0 0 0 = Val.nan :=
  ⟨rfl, rfl, c5_zero_over_zero_is_nan unifiedZero 0 0 0 rfl rfl⟩

/-- C6: a missing-marker (nan) cell in either input band propagates to a
missing-marker cell at the same (t, y, x) of the NDVI output. -/
theorem c6_missing_marker_propagates (u : Unified) (t : ℕ) (x y : ℤ)
    (h : u.vals "B5" t x y = Val.nan ∨ u.vals "B4" t x y = Val.nan) :
    (NDVI u).vals t x y = Val.nan := by
  rcases h with h | h
  · simp only [NDVI, h, vsub_nan_left, vadd_nan_left, vdiv_nan_left]
  · simp only [NDVI, h, vsub_nan_right, vadd_nan_right, vdiv_nan_left]

/-- Witness for C6 on a concrete all-missing dataset. -/
theorem c6_missing_marker_propagates_witness :
    unifiedNan.vals "B5" 0 0 0 = Val.nan
    ∧ (NDVI unifiedNan).vals 0 0 0 = Val.nan :=
  ⟨rfl, c6_missing_marker_propagates unifiedNan 0 0 0 (Or.inl rfl)⟩

/-- Counterexample to C7: an item whose B4 and B5 grids have different x
axes is merged without any failure — `xr.merge` silently outer-joins the
axes (here to {0, 1, 2}) and fills the cells a band does not cover with
the missing marker; no BandMisalignment error exists in the code. -/
theorem c7_counterexample_no_misalignment_check :
    gridB4.xs ≠ gridB5.xs
    ∧ create_multiband_dataset itemMis
        = some (xr_merge [("B4", gridB4), ("B5", gridB5)])
    ∧ (xr_merge [("B4", gridB4), ("B5", gridB5)]).xs = [0, 1, 2]
    ∧ (xr_merge [("B4", gridB4), ("B5", gridB5)]).vals "B5" 1 0 = Val.nan :=
  ⟨by decide, rfl, rfl, rfl⟩

/-- C7 amended: Stage A performs no axis-equality check.  For every
loadable item it succeeds unconditionally, outer-joining the band axes
onto their sorted union; each band keeps its value at its own grid
points and carries the missing marker at unified cells outside its own
axes. -/
theorem c7_stageA_merges_without_axis_check
    (i : Item) (gs : List (Band × RasterGrid)) (b : Band)
    (p : Band × RasterGrid) (x y : ℤ)
    (hload : i.load = some gs)
    (hfind : gs.find? (fun q => q.1 == b) = some p) :
    create_multiband_dataset i = some (xr_merge gs)
    ∧ (xr_merge gs).xs = axisUnion (gs.map (fun q => q.2.xs))
    ∧ (xr_merge gs).ys = axisUnion (gs.map (fun q => q.2.ys))
    ∧ (x ∈ p.2.xs → y ∈ p.2.ys → (xr_merge gs).vals b x y = p.2.vals x y)
    ∧ (¬(x ∈ p.2.xs ∧ y ∈ p.2.ys) → (xr_merge gs).vals b x y = Val.nan) := by
  refine ⟨by simp [create_multiband_dataset, hload], rfl, rfl, ?_, ?_⟩
  · intro hx hy
    simp [xr_merge, hfind, reindex, hx, hy]
  · intro hno
    simp [xr_merge, hfind, reindex, hno]

/-- C9: the resolver builds the base location from only the second and
third digits of the identifier's path digits and the last two digits of
its row digits, each behind a hard-coded leading '0'.  When the encoded
path or row is 100 or greater (leading digit nonzero), the path/row pair
embedded in the base URL differs from the pair the identifier encodes,
and every returned URI extends that wrong base. -/
theorem c9_resolver_mangles_large_path_row
    (pids bands : List String) (pid : String)
    (d1 d2 d3 r1 r2 r3 : Char)
    (hhead : pids.getD 0 "" = pid)
    (hfield : pyField pid 2 = String.mk [d1, d2, d3, r1, r2, r3])
    (hdig : ∀ c ∈ [d1, d2, d3, r1, r2, r3], 48 ≤ c.toNat ∧ c.toNat ≤ 57)
    (hbig : 100 ≤ 100 * (d1.toNat - 48) + 10 * (d2.toNat - 48) + (d3.toNat - 48)
      ∨ 100 ≤ 100 * (r1.toNat - 48) + 10 * (r2.toNat - 48) + (r3.toNat - 48)) :
    make_google_baseurl pids
      = "https://storage.googleapis.com/gcp-public-data-landsat/LC08/01/0"
        ++ String.mk [d2, d3] ++ "/0" ++ String.mk [r2, r3]
    ∧ (String.mk ['0', d2, d3], String.mk ['0', r2, r3])
        ≠ (String.mk [d1, d2, d3], String.mk [r1, r2, r3])
    ∧ ∀ r ∈ make_google_archive pids bands, ∀ p ∈ r.urls,
        ∃ rest, p.2 = make_google_baseurl pids ++ rest := by
  refine ⟨?_, ?_, ?_⟩
  · unfold make_google_baseurl
    rw [hhead, hfield]
    rfl
  · intro hEq
    rw [Prod.mk.injEq] at hEq
    obtain ⟨h1, h2⟩ := hEq
    have hd1 : '0' = d1 := by
      have := congrArg String.data h1
      simpa using this
    have hr1 : '0' = r1 := by
      have := congrArg String.data h2
      simpa using this
    have c0 : ('0' : Char).toNat = 48 := rfl
    have hd2 := hdig d2 (by simp)
    have hd3 := hdig d3 (by simp)
    have hr2 := hdig r2 (by simp)
    have hr3 := hdig r3 (by simp)
    rcases hbig with hb | hb
    · rw [← hd1, c0] at hb
      omega
    · rw [← hr1, c0] at hb
      omega
  · intro r hr p hp
    unfold make_google_archive at hr
    obtain ⟨xid, hx, rfl⟩ := List.mem_map.mp hr
    obtain ⟨band, hb2, rfl⟩ := List.mem_map.mp hp
    exact ⟨"/" ++ xid ++ "/" ++ xid ++ "_" ++ band ++ ".TIF",
      by simp [String.append_assoc]⟩

/-- Witness for C9 at a product id encoding path 123 and row 456: the
base URL addresses path "023" and row "056", neither of which is the
encoded path/row pair (123, 456). -/
theorem c9_resolver_mangles_large_path_row_witness :
    make_google_baseurl [pidBig]
      = "https://storage.googleapis.com/gcp-public-data-landsat/LC08/01/0"
        ++ String.mk ['2', '3'] ++ "/0" ++ String.mk ['5', '6']
    ∧ (String.mk ['0', '2', '3'], String.mk ['0', '5', '6'])
        ≠ (String.mk ['1', '2', '3'], String.mk ['4', '5', '6'])
    ∧ ∀ r ∈ make_google_archive [pidBig] ["B4"], ∀ p ∈ r.urls,
        ∃ rest, p.2 = make_google_baseurl [pidBig] ++ rest :=
  c9_resolver_mangles_large_path_row [pidBig] ["B4"] pidBig
    '1' '2' '3' '4' '5' '6' rfl rfl (by decide) (Or.inl (by decide))

/-- Helper: when every item loads, the skip loop keeps all items in
order and the loaded datasets are the per-item merges. -/
theorem filterMap_create_eq_map {items : List Item}
    (hall : ∀ i ∈ items, (i.load).isSome = true) :
    items.filterMap create_multiband_dataset
      = items.map (fun i => xr_merge ((i.load).getD [])) := by
  induction items with
  | nil => rfl
  | cons a t ih =>
    obtain ⟨gs, hgs⟩ := Option.isSome_iff_exists.mp (hall a (List.mem_cons_self a t))
    have ha : create_multiband_dataset a = some (xr_merge ((a.load).getD [])) := by
      simp [create_multiband_dataset, hgs]
    rw [List.filterMap_cons, ha, List.map_cons,
      ih (fun i hi => hall i (List.mem_cons_of_mem a hi))]

/-- Helper: when every item loads, Stage B succeeds and its result is
the aligned stack of the per-item merges over the items' dates. -/
theorem unify_ok_of_all_loaded {items : List Item}
    (hall : ∀ i ∈ items, (i.load).isSome = true) :
    unify items = Except.ok (alignStack
      (items.map (fun i => xr_merge ((i.load).getD [])))
      (items.map Item.date)) := by
  unfold unify xr_concat
  rw [filterMap_create_eq_map hall, if_pos (by simp)]

/-- Helper: the time slices of the aligned stack are, in order, each
item's date paired with that item's merged grid reindexed onto the
unified axes. -/
theorem timeSlices_alignStack (items : List Item) :
    timeSlices (alignStack (items.map (fun i => xr_merge ((i.load).getD [])))
        (items.map Item.date))
      = items.map (fun i =>
          (i.date, fun b x y =>
            if x ∈ (xr_merge ((i.load).getD [])).xs
                ∧ y ∈ (xr_merge ((i.load).getD [])).ys
              then (xr_merge ((i.load).getD [])).vals b x y
              else Val.nan)) := by
  apply List.ext_getElem
  · simp [timeSlices, alignStack]
  · intro t h1 h2
    have ht : t < items.length := by simpa using h2
    simp only [timeSlices, alignStack, List.getElem_map, List.getElem_range]
    rw [List.getD_eq_getElem?_getD, List.getElem?_map,
      List.getElem?_eq_getElem ht]
    simp [List.getElem?_eq_getElem ht]

/-- Counterexample to C3: feeding the items in descending-date order
produces a unified time axis in that same descending order — the time
axis follows input order and is not sorted ascending, so permuting the
input does change the unified dataset. -/
theorem c3_counterexample_time_axis_not_sorted :
    unifyTimes (unify [itemLate, itemEarly]) = some [200, 100]
    ∧ unifyTimes (unify [itemEarly, itemLate]) = some [100, 200]
    ∧ ¬ List.Sorted (· ≤ ·) [200, 100] := by
  refine ⟨rfl, rfl, ?_⟩
  decide

/-- C3 amended: permuting the input item sequence permutes the unified
dataset's time slices correspondingly.  The spatial axes and the
multiset of (date, aligned slice) pairs are permutation-invariant, but
the time axis equals the input dates in input order — it is not
resorted ascending by timestamp. -/
theorem c3_perm_permutes_time_slices
    (items items' : List Item) (hp : items.Perm items')
    (hall : ∀ i ∈ items, (i.load).isSome = true)
    (u u' : Unified)
    (hu : unify items = Except.ok u) (hu' : unify items' = Except.ok u') :
    u.xs = u'.xs ∧ u.ys = u'.ys
    ∧ u.times = items.map Item.date ∧ u'.times = items'.map Item.date
    ∧ (timeSlices u).Perm (timeSlices u') := by
  have hall' : ∀ i ∈ items', (i.load).isSome = true :=
    fun i hi => hall i (hp.mem_iff.mpr hi)
  rw [unify_ok_of_all_loaded hall] at hu
  rw [unify_ok_of_all_loaded hall'] at hu'
  injection hu with h
  injection hu' with h'
  subst h
  subst h'
  refine ⟨?_, ?_, rfl, rfl, ?_⟩
  · exact axisUnion_perm ((hp.map _).map Dataset.xs)
  · exact axisUnion_perm ((hp.map _).map Dataset.ys)
  · rw [timeSlices_alignStack, timeSlices_alignStack]
    exact hp.map _

/-- Witness for the amended C3 on the two loadable items swapped. -/
theorem c3_perm_permutes_time_slices_witness :
    ([itemEarly, itemLate].Perm [itemLate, itemEarly])
    ∧ (alignStack ([itemEarly, itemLate].filterMap create_multiband_dataset)
          ([itemEarly, itemLate].map Item.date)).times
        = [itemEarly, itemLate].map Item.date
    ∧ (timeSlices (alignStack
          ([itemEarly, itemLate].filterMap create_multiband_dataset)
          ([itemEarly, itemLate].map Item.date))).Perm
        (timeSlices (alignStack
          ([itemLate, itemEarly].filterMap create_multiband_dataset)
          ([itemLate, itemEarly].map Item.date))) := by
  have hall : ∀ i ∈ [itemEarly, itemLate], (i.load).isSome = true := by
    intro i hi
    cases hi with
    | head => rfl
    | tail _ hi' =>
      cases hi' with
      | head => rfl
      | tail _ h => cases h
  have h := c3_perm_permutes_time_slices [itemEarly, itemLate]
    [itemLate, itemEarly] (List.Perm.swap itemLate itemEarly []) hall
    (alignStack ([itemEarly, itemLate].filterMap create_multiband_dataset)
      ([itemEarly, itemLate].map Item.date))
    (alignStack ([itemLate, itemEarly].filterMap create_multiband_dataset)
      ([itemLate, itemEarly].map Item.date))
    rfl rfl
  exact ⟨List.Perm.swap itemLate itemEarly [], h.2.2.1, h.2.2.2.2⟩

/-- C1: cross-item unification aligns with an outer join — the unified
spatial axes are the sorted, duplicate-free union of the per-item axes
(a coordinate is unified iff some item carries it), and at each item's
time index a cell at the item's own grid points keeps the item's value
while every other unified cell holds the missing marker. -/
theorem c1_stageB_outer_join_union
    (dss : List Dataset) (dates : List ℤ) (b : Band) (i : ℕ) (ds : Dataset)
    (x y : ℤ)
    (hlen : dss.length = dates.length) (hi : dss[i]? = some ds) :
    xr_concat dss dates = Except.ok (alignStack dss dates)
    ∧ (alignStack dss dates).times = dates
    ∧ List.Sorted (· ≤ ·) (alignStack dss dates).xs
    ∧ (alignStack dss dates).xs.Nodup
    ∧ (x ∈ (alignStack dss dates).xs ↔ ∃ d ∈ dss, x ∈ d.xs)
    ∧ List.Sorted (· ≤ ·) (alignStack dss dates).ys
    ∧ (alignStack dss dates).ys.Nodup
    ∧ (y ∈ (alignStack dss dates).ys ↔ ∃ d ∈ dss, y ∈ d.ys)
    ∧ (x ∈ ds.xs → y ∈ ds.ys → (alignStack dss dates).vals b i x y = ds.vals b x y)
    ∧ (¬(x ∈ ds.xs ∧ y ∈ ds.ys) → (alignStack dss dates).vals b i x y = Val.nan) := by
  refine ⟨by simp only [xr_concat, if_pos hlen], rfl,
    sorted_axisUnion _, nodup_axisUnion _, ?_,
    sorted_axisUnion _, nodup_axisUnion _, ?_, ?_, ?_⟩
  · show x ∈ axisUnion (dss.map Dataset.xs) ↔ _
    rw [mem_axisUnion]
    simp
  · show y ∈ axisUnion (dss.map Dataset.ys) ↔ _
    rw [mem_axisUnion]
    simp
  · intro hx hy
    simp [alignStack, hi, hx, hy]
  · intro hno
    simp only [alignStack, hi]
    rw [if_neg hno]

/-- Witness for C1 at two overlapping single-row datasets: the unified
x axis is the sorted union {0, 1, 2}, the left item keeps its value at
its own cell, and the left item's slice is missing at x = 2. -/
theorem c1_stageB_outer_join_union_witness :
    xr_concat [dsLeft, dsRight] [100, 200]
      = Except.ok (alignStack [dsLeft, dsRight] [100, 200])
    ∧ (alignStack [dsLeft, dsRight] [100, 200]).times = [100, 200]
    ∧ List.Sorted (· ≤ ·) (alignStack [dsLeft, dsRight] [100, 200]).xs
    ∧ (alignStack [dsLeft, dsRight] [100, 200]).xs.Nodup
    ∧ ((2 : ℤ) ∈ (alignStack [dsLeft, dsRight] [100, 200]).xs
        ↔ ∃ d ∈ [dsLeft, dsRight], (2 : ℤ) ∈ d.xs)
    ∧ List.Sorted (· ≤ ·) (alignStack [dsLeft, dsRight] [100, 200]).ys
    ∧ (alignStack [dsLeft, dsRight] [100, 200]).ys.Nodup
    ∧ ((10 : ℤ) ∈ (alignStack [dsLeft, dsRight] [100, 200]).ys
        ↔ ∃ d ∈ [dsLeft, dsRight], (10 : ℤ) ∈ d.ys)
    ∧ ((2 : ℤ) ∈ dsLeft.xs → (10 : ℤ) ∈ dsLeft.ys
        → (alignStack [dsLeft, dsRight] [100, 200]).vals "B4" 0 2 10
          = dsLeft.vals "B4" 2 10)
    ∧ (¬((2 : ℤ) ∈ dsLeft.xs ∧ (10 : ℤ) ∈ dsLeft.ys)
        → (alignStack [dsLeft, dsRight] [100, 200]).vals "B4" 0 2 10 = Val.nan) :=
  c1_stageB_outer_join_union [dsLeft, dsRight] [100, 200] "B4" 0 dsLeft 2 10
    rfl rfl

/-- Counterexample to C8: with the window fully outside the array's
spatial extent, the notebook's reduction does not fail with
EmptySelection — the selection is empty yet the resampled series is
returned successfully, with a nan value per bucket. -/
theorem c8_counterexample_empty_window_succeeds :
    (sel exArr 99 101 99 101).xs = []
    ∧ reduce exArr 100 100 1 (fun t => t) = [(5, Val.nan)] :=
  ⟨rfl, rfl⟩

/-- C8 amended: the reduction selects the inclusive window
[x−radius, x+radius] × [y−radius, y+radius]; when that window does not
intersect the array's spatial extent, it succeeds anyway, returning one
entry per time bucket whose value is the missing marker, rather than
failing with EmptySelection. -/
theorem c8_reduce_empty_window_returns_nan_series
    (a : DataArray3) (xcen ycen buf : ℤ) (bucket : ℤ → ℤ) (x : ℤ)
    (hempty : (sel a (xcen - buf) (xcen + buf) (ycen - buf) (ycen + buf)).xs = []
      ∨ (sel a (xcen - buf) (xcen + buf) (ycen - buf) (ycen + buf)).ys = []) :
    (x ∈ (sel a (xcen - buf) (xcen + buf) (ycen - buf) (ycen + buf)).xs
      ↔ x ∈ a.xs ∧ xcen - buf ≤ x ∧ x ≤ xcen + buf)
    ∧ reduce a xcen ycen buf bucket
        = ((a.times.map bucket).dedup).map (fun k => (k, Val.nan)) := by
  constructor
  · simp [sel, List.mem_filter, and_assoc]
  · have hcells : ∀ k,
        bucketCells (sel a (xcen - buf) (xcen + buf) (ycen - buf) (ycen + buf))
          bucket k = [] := by
      intro k
      rcases hempty with h | h
      · simp [bucketCells, h]
      · simp [bucketCells, h]
    unfold reduce resampleMean
    exact List.map_congr_left (fun k _ => by rw [hcells k]; rfl)

/-- Witness for the amended C8 at a window two units away from the
extent of a concrete 2×2 array. -/
theorem c8_reduce_empty_window_returns_nan_series_witness :
    (sel exArr 99 101 99 101).xs = []
    ∧ ((0 : ℤ) ∈ (sel exArr 99 101 99 101).xs
        ↔ (0 : ℤ) ∈ exArr.xs ∧ (100 : ℤ) - 1 ≤ 0 ∧ (0 : ℤ) ≤ 100 + 1)
    ∧ reduce exArr 100 100 1 (fun t => t)
        = ((exArr.times.map (fun t => t)).dedup).map (fun k => (k, Val.nan)) :=
  ⟨rfl,
    (c8_reduce_empty_window_returns_nan_series exArr 100 100 1 (fun t => t) 0
      (Or.inl rfl)).1,
    (c8_reduce_empty_window_returns_nan_series exArr 100 100 1 (fun t => t) 0
      (Or.inl rfl)).2⟩

/-- C10: the notebook always feeds `pids[:-1]` to the URL resolver, so
the archive holds exactly the catalogued product ids except the last,
and the last catalogued id (the most recent acquisition) never appears
in the archive — hence never in the unified dataset built from it. -/
theorem c10_last_catalog_item_always_dropped (pids : List String)
    (h : pids ≠ []) (hnd : pids.Nodup) :
    (pipeline_archive pids).map ArchiveRow.product_id = pids.dropLast
    ∧ pids.getLast h ∉ (pipeline_archive pids).map ArchiveRow.product_id := by
  have hmap : (pipeline_archive pids).map ArchiveRow.product_id = pids.dropLast := by
    unfold pipeline_archive make_google_archive
    rw [List.map_map]
    exact (List.map_congr_left (fun x _ => rfl)).trans (List.map_id _)
  refine ⟨hmap, ?_⟩
  rw [hmap]
  intro hmem
  have hsplit := List.dropLast_append_getLast h
  rw [← hsplit] at hnd
  exact (List.disjoint_of_nodup_append hnd) hmem (List.mem_singleton_self _)

/-- Witness for C10 with three distinct product ids: the archive keeps
the first two and never the third. -/
theorem c10_last_catalog_item_always_dropped_witness :
    (pipeline_archive ["LC08_a", "LC08_b", "LC08_c"]).map ArchiveRow.product_id
      = ["LC08_a", "LC08_b"]
    ∧ "LC08_c" ∉ (pipeline_archive ["LC08_a", "LC08_b", "LC08_c"]).map
        ArchiveRow.product_id :=
  ⟨(c10_last_catalog_item_always_dropped ["LC08_a", "LC08_b", "LC08_c"]
      (by simp) (by decide)).1,
    (c10_last_catalog_item_always_dropped ["LC08_a", "LC08_b", "LC08_c"]
      (by simp) (by decide)).2⟩

/-- Witness for the amended C7 at the axis-misaligned item: the merge
succeeds and B5's cell at the unified x = 1 (outside B5's own axis) is
the missing marker. -/
theorem c7_stageA_merges_without_axis_check_witness :
    itemMis.load = some [("B4", gridB4), ("B5", gridB5)]
    ∧ create_multiband_dataset itemMis
        = some (xr_merge [("B4", gridB4), ("B5", gridB5)])
    ∧ (¬((1 : ℤ) ∈ gridB5.xs ∧ (0 : ℤ) ∈ gridB5.ys)
        → (xr_merge [("B4", gridB4), ("B5", gridB5)]).vals "B5" 1 0 = Val.nan) :=
  ⟨rfl,
    (c7_stageA_merges_without_axis_check itemMis [("B4", gridB4), ("B5", gridB5)]
      "B5" ("B5", gridB5) 1 0 rfl rfl).1,
    (c7_stageA_merges_without_axis_check itemMis [("B4", gridB4), ("B5", gridB5)]
      "B5" ("B5", gridB5) 1 0 rfl rfl).2.2.2.2⟩

end Landsat
